import Mathlib

/-!
Shallow embedding of `src/homework.py` (fitness-tracker homework).

Python floats are modelled as exact rationals (`ℚ`); every formula in the
source uses only literals, `+ - * /`, `**` with exponent 2, and one floor
division (`//`), all of which are exact on `ℚ`.  Python's `//` on floats
returns the floor of the quotient, modelled with `Int.floor`.  A Python
method that can raise is modelled as `Except String`, the string being the
exception's message.  The `print` in `read_package` is modelled as data in
the result (see `ReadResult`).
-/

namespace Homework

/-- The class hierarchy `Training` / `Running` / `SportsWalking` / `Swimming`
from `src/homework.py`, flattened into one inductive.  The `base` constructor
is a direct instance of class `Training` (Python does not forbid
instantiating it); the other constructors carry the extra fields their
`__init__` adds. -/
inductive Training where
  | base (action : ℚ) (duration : ℚ) (weight : ℚ)
  | running (action : ℚ) (duration : ℚ) (weight : ℚ)
  | sportsWalking (action : ℚ) (duration : ℚ) (weight : ℚ) (height : ℚ)
  | swimming (action : ℚ) (duration : ℚ) (weight : ℚ)
      (length_pool : ℚ) (count_pool : ℚ)
  deriving DecidableEq

namespace Training

/-- Field `self.action`, set in `Training.__init__`. -/
def action : Training → ℚ
  | .base a _ _ => a
  | .running a _ _ => a
  | .sportsWalking a _ _ _ => a
  | .swimming a _ _ _ _ => a

/-- Field `self.duration`, set in `Training.__init__`. -/
def duration : Training → ℚ
  | .base _ d _ => d
  | .running _ d _ => d
  | .sportsWalking _ d _ _ => d
  | .swimming _ d _ _ _ => d

/-- Field `self.weight`, set in `Training.__init__`. -/
def weight : Training → ℚ
  | .base _ _ w => w
  | .running _ _ w => w
  | .sportsWalking _ _ w _ => w
  | .swimming _ _ w _ _ => w

/-- Attribute `self.__class__.__name__`. -/
def className : Training → String
  | .base .. => "Training"
  | .running .. => "Running"
  | .sportsWalking .. => "SportsWalking"
  | .swimming .. => "Swimming"

/-- Class constant `M_IN_KM = 1_000` (same in every class). -/
def M_IN_KM : ℚ := 1000

/-- Class constant `MIN_IN_HR = 60` (same in every class). -/
def MIN_IN_HR : ℚ := 60

/-- Class attribute `LEN_STEP`: `0.65` on `Training`, overridden to `1.38`
on `Swimming` only. -/
def LEN_STEP : Training → ℚ
  | .swimming .. => 1.38
  | _ => 0.65

/-- Method `Training.get_distance`: `self.action * self.LEN_STEP / self.M_IN_KM`.
Not overridden by any subclass. -/
def get_distance (t : Training) : ℚ :=
  t.action * t.LEN_STEP / M_IN_KM

/-- Method `get_mean_speed`: the base formula `self.get_distance() / self.duration`,
overridden by `Swimming` to
`self.length_pool * self.count_pool / self.M_IN_KM / self.duration`. -/
def get_mean_speed : Training → ℚ
  | .swimming _ d _ lp cp => lp * cp / M_IN_KM / d
  | t => t.get_distance / t.duration

/-- Class constants of `Running`. -/
def COEFF_CALORIES_1 : ℚ := 18

/-- Class constants of `Running`. -/
def COEFF_CALORIES_2 : ℚ := 20

/-- Class constants of `SportsWalking`. -/
def COEFF_CALORIES_3 : ℚ := 0.035

/-- Class constants of `SportsWalking`. -/
def COEFF_CALORIES_4 : ℚ := 0.029

/-- Class constants of `Swimming`. -/
def COEFF_CALORIES_5 : ℚ := 1.1

/-- Class constants of `Swimming`. -/
def COEFF_CALORIES_6 : ℚ := 2

/-- Method `get_spent_calories`.  On the base class it raises
`NotImplementedError` with the message built from the two adjacent
f-strings (note: no space between `наследника` and the class name);
each subclass overrides it with its own formula.  `SportsWalking` uses
Python float floor division `//`, i.e. the floor of the quotient. -/
def get_spent_calories : Training → Except String ℚ
  | .base a d w =>
      .error ("Метод \"get_spent_calories\" для класса наследника"
        ++ (Training.base a d w).className ++ " не определен")
  | .running a d w =>
      .ok ((COEFF_CALORIES_1 * (Training.running a d w).get_mean_speed
        - COEFF_CALORIES_2) * w / M_IN_KM * (d * MIN_IN_HR))
  | .sportsWalking a d w h =>
      .ok ((COEFF_CALORIES_3 * w
        + (⌊(Training.sportsWalking a d w h).get_mean_speed ^ 2 / h⌋ : ℚ)
          * COEFF_CALORIES_4 * w) * d * MIN_IN_HR)
  | .swimming a d w lp cp =>
      .ok (((Training.swimming a d w lp cp).get_mean_speed + COEFF_CALORIES_5)
        * COEFF_CALORIES_6 * w)

end Training

/-- The dataclass `InfoMessage` (its five data fields). -/
structure InfoMessage where
  training_type : String
  duration : ℚ
  distance : ℚ
  speed : ℚ
  calories : ℚ
  deriving DecidableEq

namespace InfoMessage

/-- Dataclass constant `MESSAGE_TRAINING_TYPE`. -/
def MESSAGE_TRAINING_TYPE : String := "Тип тренировки:"

/-- Dataclass constant `MESSAGE_DURATION`. -/
def MESSAGE_DURATION : String := "Длительность:"

/-- Dataclass constant `MESSAGE_DISTANCE`. -/
def MESSAGE_DISTANCE : String := "Дистанция:"

/-- Dataclass constant `MESSAGE_SPEED`. -/
def MESSAGE_SPEED : String := "Ср. скорость:"

/-- Dataclass constant `MESSAGE_CALORIES`. -/
def MESSAGE_CALORIES : String := "Потрачено ккал:"

/-- The digit character of `n % 10`, as `Nat.digitChar` produces it. -/
def digit (n : ℕ) : Char := Nat.digitChar (n % 10)

/-- The three decimal digits of Python's `:.3f` formatting: the value of
`n < 1000` written with leading zeros, as a three-character string. -/
def pad3 (n : ℕ) : String :=
  String.mk [digit (n / 100), digit (n / 10), digit n]

/-- Python's `format(q, '.3f')` on our exact-rational model of floats:
round `q` to the nearest thousandth (`round` = half away from zero on the
scaled integer, the tie-breaking rule being immaterial to the claims) and
print with exactly three digits after the decimal point. -/
def fmt3 (q : ℚ) : String :=
  let n : ℤ := round (q * 1000)
  (if n < 0 then "-" else "")
    ++ toString (n.natAbs / 1000) ++ "." ++ pad3 (n.natAbs % 1000)

/-- Method `InfoMessage.get_message`: the five-part f-string template. -/
def get_message (m : InfoMessage) : String :=
  MESSAGE_TRAINING_TYPE ++ " " ++ m.training_type ++ "; "
    ++ MESSAGE_DURATION ++ " " ++ fmt3 m.duration ++ " ч.; "
    ++ MESSAGE_DISTANCE ++ " " ++ fmt3 m.distance ++ " км; "
    ++ MESSAGE_SPEED ++ " " ++ fmt3 m.speed ++ " км/ч; "
    ++ MESSAGE_CALORIES ++ " " ++ fmt3 m.calories ++ "."

end InfoMessage

/-- Method `Training.show_training_info`: builds the `InfoMessage` from the class
name, the stored duration and the three computed values; it propagates the
`NotImplementedError` that `get_spent_calories` may raise. -/
def Training.show_training_info (t : Training) : Except String InfoMessage :=
  match t.get_spent_calories with
  | .error e => .error e
  | .ok cal =>
      .ok ⟨t.className, t.duration, t.get_distance, t.get_mean_speed, cal⟩

/-- Positional application `Running(*data)`; any other argument count
raises `TypeError`. -/
def mkRunning : List ℚ → Option Training
  | [a, d, w] => some (.running a d w)
  | _ => none

/-- Positional application `SportsWalking(*data)`. -/
def mkSportsWalking : List ℚ → Option Training
  | [a, d, w, h] => some (.sportsWalking a d w h)
  | _ => none

/-- Positional application `Swimming(*data)`. -/
def mkSwimming : List ℚ → Option Training
  | [a, d, w, lp, cp] => some (.swimming a d w lp cp)
  | _ => none

/-- The dict `type_trainings` of `read_package`, as an association list in
the source's insertion order. -/
def type_trainings : List (String × (List ℚ → Option Training)) :=
  [("RUN", mkRunning), ("WLK", mkSportsWalking), ("SWM", mkSwimming)]

/-- Observable outcome of `read_package` in Python terms: either it returns
a `Training`; or the constructor raises `TypeError` (wrong number of
positional arguments), which propagates; or — for an unrecognized tag —
the `KeyError` is caught, the message is printed, and the function returns
`None`. -/
inductive ReadResult where
  | returnedTraining (t : Training)
  | raisedTypeError
  | returnedNonePrinting (msg : String)
  deriving DecidableEq

/-- Function `read_package(workout_type, data)`.  For a recognized tag the first
`if` returns `type_trainings[workout_type](*data)`; for an unrecognized tag
the `try` block's subscript raises `KeyError`, which the `except` catches,
printing the f-string with the tag and falling off the end (returning
`None`). -/
def read_package (workout_type : String) (data : List ℚ) : ReadResult :=
  match type_trainings.lookup workout_type with
  | some mk =>
      match mk data with
      | some t => .returnedTraining t
      | none => .raisedTypeError
  | none =>
      .returnedNonePrinting
        ("Тип тренеровки \"" ++ workout_type ++ "\" не релевантен")

end Homework

namespace Homework

/-- Enumerates the operations named by the no-mutation lifecycle claim. -/
inductive MethodCall where
  | getDistance
  | getMeanSpeed
  | getSpentCalories
  | showTrainingInfo
  deriving DecidableEq

/-- State-passing translation of `Training.get_distance`: the Python body
contains no assignment to `self`, so the post-state is the receiver
unchanged. -/
def Training.get_distance_st (t : Training) : ℚ × Training :=
  (t.get_distance, t)

/-- State-passing translation of `get_mean_speed` (no assignment to `self`
in either the base or the `Swimming` override). -/
def Training.get_mean_speed_st (t : Training) : ℚ × Training :=
  (t.get_mean_speed, t)

/-- State-passing translation of `get_spent_calories` (no assignment to
`self` in the base or any override). -/
def Training.get_spent_calories_st (t : Training) : Except String ℚ × Training :=
  (t.get_spent_calories, t)

/-- State-passing translation of `show_training_info` (its body only reads
fields and calls the other methods). -/
def Training.show_training_info_st (t : Training) :
    Except String InfoMessage × Training :=
  (t.show_training_info, t)

/-- Post-state of one method call on a `Training` object. -/
def invoke (t : Training) : MethodCall → Training
  | .getDistance => t.get_distance_st.2
  | .getMeanSpeed => t.get_mean_speed_st.2
  | .getSpentCalories => t.get_spent_calories_st.2
  | .showTrainingInfo => t.show_training_info_st.2

/-- Post-state after a sequence of method calls. -/
def invokeSeq (t : Training) (cs : List MethodCall) : Training :=
  cs.foldl invoke t

/-- Template shape required of each rendered numeric field: the string ends
in a decimal point followed by exactly three digit characters. -/
def threeDecimals (s : String) : Prop :=
  ∃ a b : String, s = a ++ "." ++ b ∧ b.length = 3 ∧
    ∀ c ∈ b.toList, c.isDigit = true

end Homework

namespace Homework

theorem digitChar_isDigit (m : ℕ) (h : m < 10) :
    (Nat.digitChar m).isDigit = true := by
  interval_cases m <;> decide

theorem pad3_length (n : ℕ) : (InfoMessage.pad3 n).length = 3 := rfl

theorem fmt3_threeDecimals (q : ℚ) : threeDecimals (InfoMessage.fmt3 q) := by
  refine ⟨(if round (q * 1000) < 0 then "-" else "")
      ++ toString ((round (q * 1000)).natAbs / 1000),
    InfoMessage.pad3 ((round (q * 1000)).natAbs % 1000), rfl, rfl, ?_⟩
  intro c hc
  simp only [InfoMessage.pad3, InfoMessage.digit, String.toList, String.mk,
    List.mem_cons, List.not_mem_nil, or_false] at hc
  rcases hc with h | h | h <;> subst h <;>
    exact digitChar_isDigit _ (Nat.mod_lt _ (by norm_num))

end Homework

namespace Homework

/-- C1: the claim says `read_package` fails with an InvalidTag error for an
unrecognized tag.  It does not: at the concrete tag `"XYZ"` it catches the
`KeyError` itself, prints the diagnostic (which does contain the tag), and
returns `None` — a normal return, not a raised error. -/
theorem C1_read_package_counterexample :
    read_package "XYZ" [0]
      = .returnedNonePrinting "Тип тренеровки \"XYZ\" не релевантен"
    ∧ read_package "XYZ" [0] ≠ .raisedTypeError
    ∧ ∀ t : Training, read_package "XYZ" [0] ≠ .returnedTraining t := by
  refine ⟨rfl, by decide, ?_⟩
  intro t h
  simp [read_package, type_trainings, List.lookup] at h

/-- C1 (amended): for every tag outside RUN, WLK, SWM and every value list,
`read_package` raises no error and returns no workout: it prints the
diagnostic message — which contains the offending tag verbatim — and
returns `None`. -/
theorem C1_read_package_unknown_tag (wt : String) (data : List ℚ)
    (h1 : wt ≠ "RUN") (h2 : wt ≠ "WLK") (h3 : wt ≠ "SWM") :
    read_package wt data
      = .returnedNonePrinting ("Тип тренеровки \"" ++ wt ++ "\" не релевантен")
    ∧ ∃ p s : String,
        ("Тип тренеровки \"" ++ wt ++ "\" не релевантен") = p ++ wt ++ s := by
  have hb1 : (wt == "RUN") = false := beq_eq_false_iff_ne.mpr h1
  have hb2 : (wt == "WLK") = false := beq_eq_false_iff_ne.mpr h2
  have hb3 : (wt == "SWM") = false := beq_eq_false_iff_ne.mpr h3
  refine ⟨?_, "Тип тренеровки \"", "\" не релевантен", rfl⟩
  simp [read_package, type_trainings, List.lookup, hb1, hb2, hb3]

theorem C1_read_package_unknown_tag_witness :
    ("XYZ" : String) ≠ "RUN"
    ∧ read_package "XYZ" [0]
        = .returnedNonePrinting ("Тип тренеровки \"" ++ "XYZ" ++ "\" не релевантен") :=
  ⟨by decide,
    (C1_read_package_unknown_tag "XYZ" [0] (by decide) (by decide) (by decide)).1⟩

/-- C2: `read_package("SWM", [720, 1, 80, 25, 40])` builds the `Swimming`
workout whose distance is `720 * 1.38 / 1000 = 0.9936` km, whose mean speed
comes from the pool geometry, `25 * 40 / 1000 / 1 = 1.0` km/h, and whose
calories are `(1.0 + 1.1) * 2 * 80 = 336.0`. -/
theorem C2_swm_scenario :
    read_package "SWM" [720, 1, 80, 25, 40]
      = .returnedTraining (.swimming 720 1 80 25 40)
    ∧ (Training.swimming 720 1 80 25 40).get_distance = 720 * 1.38 / 1000
    ∧ (Training.swimming 720 1 80 25 40).get_distance = 0.9936
    ∧ (Training.swimming 720 1 80 25 40).get_mean_speed = 25 * 40 / 1000 / 1
    ∧ (Training.swimming 720 1 80 25 40).get_mean_speed = 1
    ∧ (Training.swimming 720 1 80 25 40).get_spent_calories
        = .ok ((1 + 1.1) * 2 * 80)
    ∧ (Training.swimming 720 1 80 25 40).get_spent_calories = .ok 336 := by
  have hspeed : (Training.swimming 720 1 80 25 40).get_mean_speed = 1 := by
    simp only [Training.get_mean_speed, Training.M_IN_KM]
    norm_num
  refine ⟨rfl, ?_, ?_, ?_, hspeed, ?_, ?_⟩ <;>
    simp only [Training.get_distance, Training.get_mean_speed,
      Training.get_spent_calories, Training.action, Training.LEN_STEP,
      Training.M_IN_KM, Training.COEFF_CALORIES_5, Training.COEFF_CALORIES_6,
      hspeed, Except.ok.injEq] <;>
    norm_num

/-- C3: the claim's calorie value for `construct("RUN", [15000, 1, 75])` is
wrong: the Running formula `(18 * 9.75 - 20) * 75 / 1000 * (1 * 60)` equals
`699.75`, not the claimed `728.25`, and the code computes `699.75`. -/
theorem C3_run_calories_counterexample :
    (Training.running 15000 1 75).get_spent_calories ≠ .ok 728.25
    ∧ (Training.running 15000 1 75).get_spent_calories
        = .ok ((18 * 9.75 - 20) * 75 / 1000 * (1 * 60))
    ∧ ((18 * 9.75 - 20) * 75 / 1000 * (1 * 60) : ℚ) = 699.75 := by
  have hspeed : (Training.running 15000 1 75).get_mean_speed = 9.75 := by
    simp only [Training.get_mean_speed, Training.get_distance, Training.action,
      Training.LEN_STEP, Training.M_IN_KM, Training.duration]
    norm_num
  refine ⟨?_, ?_, by norm_num⟩ <;>
    simp only [Training.get_spent_calories, hspeed, Training.COEFF_CALORIES_1,
      Training.COEFF_CALORIES_2, Training.M_IN_KM, Training.MIN_IN_HR,
      ne_eq, Except.ok.injEq] <;>
    norm_num

/-- C3 (amended): `read_package("RUN", [15000, 1, 75])` builds the `Running`
workout whose distance is `15000 * 0.65 / 1000 = 9.75` km, whose mean speed
is `9.75` km/h, and whose calories are
`(18 * 9.75 - 20) * 75 / 1000 * (1 * 60) = 699.75` per the Running formula. -/
theorem C3_run_scenario :
    read_package "RUN" [15000, 1, 75]
      = .returnedTraining (.running 15000 1 75)
    ∧ (Training.running 15000 1 75).get_distance = 15000 * 0.65 / 1000
    ∧ (Training.running 15000 1 75).get_distance = 9.75
    ∧ (Training.running 15000 1 75).get_mean_speed = 9.75
    ∧ (Training.running 15000 1 75).get_spent_calories = .ok 699.75 := by
  have hspeed : (Training.running 15000 1 75).get_mean_speed = 9.75 := by
    simp only [Training.get_mean_speed, Training.get_distance, Training.action,
      Training.LEN_STEP, Training.M_IN_KM, Training.duration]
    norm_num
  refine ⟨rfl, ?_, ?_, hspeed, ?_⟩ <;>
    simp only [Training.get_distance, Training.get_spent_calories, hspeed,
      Training.action, Training.LEN_STEP, Training.M_IN_KM, Training.MIN_IN_HR,
      Training.COEFF_CALORIES_1, Training.COEFF_CALORIES_2,
      Except.ok.injEq] <;>
    norm_num

/-- C4: `read_package("WLK", [9000, 1, 75, 180])` builds the `SportsWalking`
workout whose distance and mean speed are `5.85`, and whose calories are
`(0.035 * 75 + (5.85 ^ 2 // 180) * 0.029 * 75) * 1 * 60 = 157.5`; the floor
division zeroes the second term since `⌊34.2225 / 180⌋ = 0`. -/
theorem C4_wlk_scenario :
    read_package "WLK" [9000, 1, 75, 180]
      = .returnedTraining (.sportsWalking 9000 1 75 180)
    ∧ (Training.sportsWalking 9000 1 75 180).get_distance = 5.85
    ∧ (Training.sportsWalking 9000 1 75 180).get_mean_speed = 5.85
    ∧ ⌊((5.85 : ℚ) ^ 2 / 180)⌋ = 0
    ∧ (Training.sportsWalking 9000 1 75 180).get_spent_calories
        = .ok ((0.035 * 75 + 0 * 0.029 * 75) * 1 * 60)
    ∧ (Training.sportsWalking 9000 1 75 180).get_spent_calories
        = .ok 157.5 := by
  have hspeed : (Training.sportsWalking 9000 1 75 180).get_mean_speed = 5.85 := by
    simp only [Training.get_mean_speed, Training.get_distance, Training.action,
      Training.LEN_STEP, Training.M_IN_KM, Training.duration]
    norm_num
  have hfl : ⌊((5.85 : ℚ) ^ 2 / 180)⌋ = 0 := by
    rw [Int.floor_eq_zero_iff, Set.mem_Ico]
    norm_num
  refine ⟨rfl, ?_, hspeed, hfl, ?_, ?_⟩ <;>
    simp only [Training.get_distance, Training.get_spent_calories, hspeed, hfl,
      Training.action, Training.LEN_STEP, Training.M_IN_KM, Training.MIN_IN_HR,
      Training.COEFF_CALORIES_3, Training.COEFF_CALORIES_4, Int.cast_zero,
      Except.ok.injEq] <;>
    norm_num

/-- C5: Swimming's speed and calories do not depend on `action_count`: two
Swimming workouts agreeing on duration, weight, pool length and pool count
but differing in `action` get the same `get_mean_speed` and the same
`get_spent_calories`. -/
theorem C5_swimming_action_independent (a1 a2 d w lp cp : ℚ) :
    (Training.swimming a1 d w lp cp).get_mean_speed
      = (Training.swimming a2 d w lp cp).get_mean_speed
    ∧ (Training.swimming a1 d w lp cp).get_spent_calories
      = (Training.swimming a2 d w lp cp).get_spent_calories :=
  ⟨rfl, rfl⟩

/-- C6: on the base `Training` class, `get_spent_calories` raises
`NotImplementedError` whose message contains the offending class name
(`Training`), and it never returns a numeric value. -/
theorem C6_base_calories_raises (a d w : ℚ) :
    (∃ p s : String,
        (Training.base a d w).get_spent_calories
          = .error (p ++ (Training.base a d w).className ++ s))
    ∧ (Training.base a d w).className = "Training"
    ∧ ∀ v : ℚ, (Training.base a d w).get_spent_calories ≠ .ok v := by
  refine ⟨⟨"Метод \"get_spent_calories\" для класса наследника",
    " не определен", rfl⟩, rfl, ?_⟩
  intro v h
  simp [Training.get_spent_calories] at h

/-- C7: `get_message` renders the fixed template with the fields in the
order type, duration, distance, speed, calories, and each of the four
numeric fields is formatted with exactly three decimal digits. -/
theorem C7_get_message_template (m : InfoMessage) :
    m.get_message
      = "Тип тренировки:" ++ " " ++ m.training_type ++ "; "
        ++ "Длительность:" ++ " " ++ InfoMessage.fmt3 m.duration ++ " ч.; "
        ++ "Дистанция:" ++ " " ++ InfoMessage.fmt3 m.distance ++ " км; "
        ++ "Ср. скорость:" ++ " " ++ InfoMessage.fmt3 m.speed ++ " км/ч; "
        ++ "Потрачено ккал:" ++ " " ++ InfoMessage.fmt3 m.calories ++ "."
    ∧ threeDecimals (InfoMessage.fmt3 m.duration)
    ∧ threeDecimals (InfoMessage.fmt3 m.distance)
    ∧ threeDecimals (InfoMessage.fmt3 m.speed)
    ∧ threeDecimals (InfoMessage.fmt3 m.calories) :=
  ⟨rfl, fmt3_threeDecimals _, fmt3_threeDecimals _, fmt3_threeDecimals _,
    fmt3_threeDecimals _⟩

/-- C8: a Running workout's distance is exactly `action * 0.65 / 1000`;
in general `get_distance = action * LEN_STEP / 1000`, with `LEN_STEP` equal
to `0.65` for every variant except Swimming, where it is `1.38`. -/
theorem C8_distance_formula (a d w : ℚ) (h : 0 < d) :
    (Training.running a d w).get_distance = a * 0.65 / 1000
    ∧ (∀ t : Training, t.get_distance = t.action * t.LEN_STEP / 1000)
    ∧ (∀ a2 d2 w2 lp cp : ℚ,
        (Training.swimming a2 d2 w2 lp cp).LEN_STEP = 1.38)
    ∧ (∀ a2 d2 w2 : ℚ, (Training.running a2 d2 w2).LEN_STEP = 0.65
        ∧ (Training.base a2 d2 w2).LEN_STEP = 0.65)
    ∧ (∀ a2 d2 w2 h2 : ℚ,
        (Training.sportsWalking a2 d2 w2 h2).LEN_STEP = 0.65) :=
  ⟨rfl, fun _ => rfl, fun _ _ _ _ _ => rfl, fun _ _ _ => ⟨rfl, rfl⟩,
    fun _ _ _ _ => rfl⟩

theorem C8_distance_formula_witness :
    (0 : ℚ) < 1
    ∧ (Training.running 15000 1 75).get_distance = 15000 * 0.65 / 1000 :=
  ⟨by norm_num, (C8_distance_formula 15000 1 75 (by norm_num)).1⟩

/-- C9: no operation mutates a constructed workout: after any sequence of
`get_distance`, `get_mean_speed`, `get_spent_calories`,
`show_training_info` calls, the object (all its fields) is unchanged. -/
theorem C9_no_mutation (t : Training) (cs : List MethodCall) :
    invokeSeq t cs = t := by
  induction cs generalizing t with
  | nil => rfl
  | cons c cs ih =>
      have h1 : invoke t c = t := by cases c <;> rfl
      show List.foldl invoke (invoke t c) cs = t
      rw [h1]
      exact ih t

/-- C10: the Running input `action = 100, duration = 1, weight = 75` has
mean speed below `20 / 18` km/h and its `get_spent_calories` returns the
strictly negative value `-84.735`: the calorie result is not guaranteed
non-negative. -/
theorem C10_running_negative_calories :
    (0 : ℚ) < 1 ∧ (0 : ℚ) < 75
    ∧ (Training.running 100 1 75).get_mean_speed < 20 / 18
    ∧ (Training.running 100 1 75).get_spent_calories = .ok (-84.735)
    ∧ (-84.735 : ℚ) < 0 := by
  have hspeed : (Training.running 100 1 75).get_mean_speed = 0.065 := by
    simp only [Training.get_mean_speed, Training.get_distance, Training.action,
      Training.LEN_STEP, Training.M_IN_KM, Training.duration]
    norm_num
  refine ⟨by norm_num, by norm_num, ?_, ?_, by norm_num⟩ <;>
    simp only [Training.get_spent_calories, hspeed, Training.COEFF_CALORIES_1,
      Training.COEFF_CALORIES_2, Training.M_IN_KM, Training.MIN_IN_HR,
      Except.ok.injEq] <;>
    norm_num

end Homework
